import Mathlib

/-!
Shallow embedding of the network-resilience core of the teneo-agent-sdk
(Go): the message retry queue (`pkg/network/retry_queue.go`) and the
network client's connection state machine and single-flight reconnection
flag (`pkg/network`, the `NetworkClient` file).

Conventions of the embedding:
* `time.Duration` and `time.Time` values are integer nanoseconds (`Int`);
  `time.Now()` is passed in explicitly as a `now` parameter.
* Go `float64` arithmetic in `calculateBackoff` is modelled with exact
  rationals (`ℚ`); the Go conversion `time.Duration(delay)` (float64 →
  int64, truncation toward zero) is modelled by `durTrunc`.
* Go errors are opaque values (`Err`); a failed send is `some err`,
  a successful one `none`.
* Side effects of the client (dialing, starting/stopping components,
  closing the socket) are recorded as an explicit action trace.
-/

namespace Teneo

/-- The constant `time.Second` in nanoseconds; `time.Duration` and `time.Time` values
are integer nanoseconds throughout. -/
def second : Int := 1000000000

/-- Opaque Go `error` value. -/
abbrev Err := String

/-- Modelled from the spec: the typed message envelope (`types.Message`,
whose source file is not part of the retry/connection core). The retry
queue and client treat it as an immutable opaque value, so it is
abstracted to an identity. -/
structure Message where
  payload : Nat
deriving DecidableEq, Repr

/-- Embeds `RetryPolicy` from retry_queue.go. -/
structure RetryPolicy where
  maxRetries : Int
  initialDelay : Int
  maxDelay : Int
  backoffFactor : ℚ
  retryableError : Err → Bool

/-- Embeds `DefaultRetryPolicy()` from retry_queue.go: 3 retries, 1s initial
delay, 30s max delay, factor 2.0, and every error is retriable. -/
def DefaultRetryPolicy : RetryPolicy :=
  { maxRetries := 3
    initialDelay := 1 * second
    maxDelay := 30 * second
    backoffFactor := 2
    retryableError := fun _ => true }

/-- Embeds `RetryableMessage` from retry_queue.go. -/
structure RetryableMessage where
  message : Message
  retryCount : Int
  lastAttempt : Int
  nextRetry : Int
  error : Err
deriving DecidableEq, Repr

/-- Embeds `RetryMetrics` from retry_queue.go (counters only; the mutex is a
run-time artefact). -/
structure RetryMetrics where
  totalRetries : Int
  successfulRetries : Int
  failedRetries : Int
  droppedMessages : Int
  currentQueueSize : Int
deriving DecidableEq, Repr

/-- The state of a `MessageRetryQueue`: its slice of pending messages,
its policy and its metrics. -/
structure MessageRetryQueue where
  queue : List RetryableMessage
  policy : RetryPolicy
  metrics : RetryMetrics

/-- Go's `float64 → int64` conversion: truncation toward zero
(`x.num.tdiv x.den` truncates toward zero since the denominator is
positive). -/
def durTrunc (x : ℚ) : Int :=
  x.num.tdiv (x.den : Int)

/-- The loop of `calculateBackoff`:
`for i := 1; i < retryCount; i++ { delay *= BackoffFactor }`,
with `n` the number of iterations. -/
def backoffLoop (factor : ℚ) : Nat → ℚ → ℚ
  | 0, delay => delay
  | n + 1, delay => backoffLoop factor n (delay * factor)

/-- Embeds `calculateBackoff` from retry_queue.go:
`delay := float64(InitialDelay)`, then the multiply loop (which runs
`retryCount - 1` times, 0 times when `retryCount ≤ 1`), then
`MaxDelay` if `time.Duration(delay) > MaxDelay` else `time.Duration(delay)`. -/
def calculateBackoff (policy : RetryPolicy) (retryCount : Int) : Int :=
  let delay : ℚ := backoffLoop policy.backoffFactor (retryCount - 1).toNat (policy.initialDelay : ℚ)
  if durTrunc delay > policy.maxDelay then policy.maxDelay else durTrunc delay

/-- Embeds `Enqueue(msg, err)` from retry_queue.go: a non-retriable error only
bumps `DroppedMessages`; a retriable one appends a fresh
`RetryableMessage` with `RetryCount 0` and `NextRetry = now + InitialDelay`. -/
def Enqueue (q : MessageRetryQueue) (msg : Message) (err : Err) (now : Int) :
    MessageRetryQueue :=
  if !q.policy.retryableError err then
    { q with metrics := { q.metrics with droppedMessages := q.metrics.droppedMessages + 1 } }
  else
    let retryMsg : RetryableMessage :=
      { message := msg
        retryCount := 0
        lastAttempt := now
        nextRetry := now + q.policy.initialDelay
        error := err }
    let queue := q.queue ++ [retryMsg]
    { q with
      queue := queue
      metrics := { q.metrics with currentQueueSize := queue.length } }

/-- Embeds `retryMessage` from retry_queue.go, applied to a message already
removed from the queue by `processReadyMessages`. The outcome of
`sendFunc` is passed in (`none` = success). It increments `RetryCount`
first; on success it bumps the success counters; on failure it either
drops the message (incremented count ≥ `MaxRetries`) or recomputes
`NextRetry` via `calculateBackoff` and re-appends the message. -/
def retryMessage (q : MessageRetryQueue) (m : RetryableMessage)
    (sendResult : Option Err) (now : Int) : MessageRetryQueue :=
  let m := { m with retryCount := m.retryCount + 1, lastAttempt := now }
  match sendResult with
  | none =>
      { q with metrics := { q.metrics with
          successfulRetries := q.metrics.successfulRetries + 1
          totalRetries := q.metrics.totalRetries + 1 } }
  | some err =>
      let m := { m with error := err }
      let q1 := { q with metrics := { q.metrics with
          totalRetries := q.metrics.totalRetries + 1 } }
      if m.retryCount ≥ q1.policy.maxRetries then
        { q1 with metrics := { q1.metrics with
            failedRetries := q1.metrics.failedRetries + 1
            droppedMessages := q1.metrics.droppedMessages + 1 } }
      else
        let delay := calculateBackoff q1.policy m.retryCount
        let m := { m with nextRetry := now + delay }
        let queue := q1.queue ++ [m]
        { q1 with
          queue := queue
          metrics := { q1.metrics with currentQueueSize := queue.length } }

/-- Embeds `exponentialBackoff(attempt)` from the NetworkClient file:
`delay := time.Duration(attempt) * 5 * time.Second`, capped at 60s. -/
def exponentialBackoff (attempt : Int) : Int :=
  let delay : Int := attempt * 5 * second
  if delay > 60 * second then 60 * second else delay

/-- Embeds `Config` from the NetworkClient file. -/
structure Config where
  webSocketURL : String
  reconnectEnabled : Bool
  reconnectDelay : Int
  maxReconnects : Int
  messageTimeout : Int
  pingInterval : Int
  handshakeTimeout : Int

/-- The `NetworkClient` fields the connection state machine touches:
the connection handle (`none` = nil), the `running` and `authenticated`
booleans, the atomic int32 `reconnecting` flag, the reconnector's
configuration and attempt counter, and the retry queue's policy. -/
structure NetworkClient where
  url : String
  conn : Option Nat
  running : Bool
  authenticated : Bool
  reconnecting : Int
  reconnectorEnabled : Bool
  reconnectorAttempts : Int
  reconnectorMaxAttempts : Int
  reconnectorDelay : Int
  retryPolicy : RetryPolicy

/-- Embeds `NewNetworkClient(config)`: fresh client, not running, not
authenticated, retry queue built with `DefaultRetryPolicy()`. -/
def NewNetworkClient (config : Config) : NetworkClient :=
  { url := config.webSocketURL
    conn := none
    running := false
    authenticated := false
    reconnecting := 0
    reconnectorEnabled := config.reconnectEnabled
    reconnectorAttempts := 0
    reconnectorMaxAttempts := config.maxReconnects
    reconnectorDelay := config.reconnectDelay
    retryPolicy := DefaultRetryPolicy }

/-- Observable side effects of the client's lifecycle methods. -/
inductive ClientAction where
  | dial
  | supervisorStart
  | supervisorStop
  | retryQueueStart
  | retryQueueStop
  | healthMonitorStart
  | healthMonitorStop
  | sendCloseFrame
  | closeConn
  | cancelContext
  | startWorkers
deriving DecidableEq, Repr

/-- Result of a lifecycle method: the new client state, the returned
error (`none` = nil), and the trace of side effects performed. -/
structure ClientResult where
  client : NetworkClient
  error : Option Err
  actions : List ClientAction

/-- Embeds `Connect()` from the NetworkClient file. Fails immediately when
already running; otherwise dials (outcome passed in as `dialResult`,
`some h` being the new connection handle), installs the handle, sets
`running := true` and `authenticated := false`, then starts the
supervisor (outcome `supervisorOk`), the retry queue and the health
monitor. -/
def Connect (c : NetworkClient) (dialResult : Option Nat) (supervisorOk : Bool) :
    ClientResult :=
  if c.running then
    { client := c, error := some "client is already running", actions := [] }
  else
    match dialResult with
    | none =>
        { client := c
          error := some "failed to connect to WebSocket"
          actions := [.dial] }
    | some h =>
        let c1 := { c with conn := some h, running := true, authenticated := false }
        if !supervisorOk then
          { client := c1
            error := some "failed to start supervisor"
            actions := [.dial, .supervisorStart] }
        else
          { client := c1
            error := none
            actions := [.dial, .supervisorStart, .retryQueueStart, .healthMonitorStart] }

/-- Embeds `Disconnect()` from the NetworkClient file. Returns nil immediately
when not running; otherwise flips `running` and `authenticated` off,
detaches the handle, stops the subordinate components, sends a close
frame and closes the old handle, and cancels the context. -/
def Disconnect (c : NetworkClient) : ClientResult :=
  if !c.running then
    { client := c, error := none, actions := [] }
  else
    let oldConn := c.conn
    let c1 := { c with running := false, authenticated := false, conn := none }
    let closeActs : List ClientAction :=
      match oldConn with
      | some _ => [.sendCloseFrame, .closeConn]
      | none => []
    { client := c1
      error := none
      actions :=
        [.supervisorStop, .retryQueueStop, .healthMonitorStop] ++ closeActs ++ [.cancelContext] }

/-- Embeds `reconnect()` from the NetworkClient file. Closes any existing
handle, clears `running` and `authenticated`, cancels the old context
and mints a fresh one, then dials; on success installs the new handle,
sets `running := true`, `authenticated := false`, and relaunches the
worker goroutines. -/
def reconnect (c : NetworkClient) (dialResult : Option Nat) : ClientResult :=
  let closeActs : List ClientAction :=
    match c.conn with
    | some _ => [.closeConn]
    | none => []
  let c1 := { c with conn := none, running := false, authenticated := false }
  match dialResult with
  | none =>
      { client := c1
        error := some "failed to reconnect to WebSocket"
        actions := closeActs ++ [.cancelContext, .dial] }
  | some h =>
      { client := { c1 with conn := some h, running := true, authenticated := false }
        error := none
        actions := closeActs ++ [.cancelContext, .dial, .startWorkers] }

/-- Embeds `IsAuthenticated()`. -/
def IsAuthenticated (c : NetworkClient) : Bool :=
  c.authenticated

/-- Embeds `SetAuthenticated(authenticated)`. -/
def SetAuthenticated (c : NetworkClient) (authenticated : Bool) : NetworkClient :=
  { c with authenticated := authenticated }

/-- The client operations that touch the `authenticated` flag or the
connection lifecycle, for stating that authentication stays off until
`SetAuthenticated(true)`. -/
inductive ClientOp where
  | connectOp (dialResult : Option Nat) (supervisorOk : Bool)
  | disconnectOp
  | reconnectAttempt (dialResult : Option Nat)
  | setAuthenticatedOp (b : Bool)
deriving DecidableEq, Repr

/-- Apply one client operation to the state. -/
def applyOp (c : NetworkClient) : ClientOp → NetworkClient
  | .connectOp d s => (Connect c d s).client
  | .disconnectOp => (Disconnect c).client
  | .reconnectAttempt d => (reconnect c d).client
  | .setAuthenticatedOp b => SetAuthenticated c b

/-- One failure-detection trigger, as in `readMessages`, `writeMessages`
and `pingPongHandler`:
`if c.reconnector.enabled && atomic.CompareAndSwapInt32(&c.reconnecting, 0, 1) { go c.attemptReconnection() }`.
Returns the new flag value and whether this trigger launched
`attemptReconnection`. -/
def triggerReconnection (enabled : Bool) (flag : Int) : Int × Bool :=
  if enabled then
    if flag = 0 then (1, true) else (flag, false)
  else
    (flag, false)

/-- A batch of concurrent failure triggers. `CompareAndSwapInt32` is
atomic, so every interleaving of `n` triggers is one of the sequential
orders, and all triggers are identical; `runTriggers` executes `n` of
them in sequence and counts how many launched `attemptReconnection`. -/
def runTriggers (enabled : Bool) (flag : Int) : Nat → Int × Nat
  | 0 => (flag, 0)
  | n + 1 =>
      let r := triggerReconnection enabled flag
      let rest := runTriggers enabled r.1 n
      (rest.1, (if r.2 then 1 else 0) + rest.2)

/-- Embeds `DefaultNetworkConfig()` from the NetworkClient file. -/
def DefaultNetworkConfig : Config :=
  { webSocketURL := "ws://localhost:8090/ws"
    reconnectEnabled := true
    reconnectDelay := 5 * second
    maxReconnects := 10
    messageTimeout := 30 * second
    pingInterval := 30 * second
    handshakeTimeout := 10 * second }

/-- The claim's reading of the reconnection delay: an attempt-indexed
exponential (some positive base `c`, ratio `r > 1`) capped at some
maximum delay. -/
def GrowsExponentiallyCapped (f : Int → Int) : Prop :=
  ∃ c r cap : ℚ, 0 < c ∧ 1 < r ∧
    ∀ n : Int, 1 ≤ n → (f n : ℚ) = min (c * r ^ (n - 1).toNat) cap

/-! ### Concrete fixtures for witnesses -/

/-- Zeroed metrics, as `NewMessageRetryQueue` initialises them. -/
def metricsZero : RetryMetrics :=
  { totalRetries := 0, successfulRetries := 0, failedRetries := 0
    droppedMessages := 0, currentQueueSize := 0 }

/-- A fresh retry queue under the default policy. -/
def queueDefault : MessageRetryQueue :=
  { queue := [], policy := DefaultRetryPolicy, metrics := metricsZero }

/-- A concrete message. -/
def msg0 : Message := { payload := 0 }

/-- A queued message that has not been retried yet. -/
def retryMsg0 : RetryableMessage :=
  { message := msg0, retryCount := 0, lastAttempt := 0
    nextRetry := 1000000000, error := "send failed" }

/-- A queued message already retried twice. -/
def retryMsg2 : RetryableMessage :=
  { retryMsg0 with retryCount := 2 }

/-- A policy whose predicate rejects exactly the error "fatal". -/
def policyFatal : RetryPolicy :=
  { DefaultRetryPolicy with retryableError := fun e => e != "fatal" }

/-- A fresh retry queue under `policyFatal`. -/
def queueFatal : MessageRetryQueue :=
  { queue := [], policy := policyFatal, metrics := metricsZero }

/-- A concrete fresh client. -/
def clientFresh : NetworkClient :=
  NewNetworkClient DefaultNetworkConfig

/-- A concrete already-running client. -/
def clientRunning : NetworkClient :=
  { clientFresh with running := true }

/-! ### Helper lemmas -/

theorem ite_gt_eq_min (a b : Int) : (if a > b then b else a) = min a b := by
  split <;> omega

theorem backoffLoop_eq_pow (f : ℚ) (n : Nat) (d : ℚ) :
    backoffLoop f n d = d * f ^ n := by
  induction n generalizing d with
  | zero => simp [backoffLoop]
  | succ n ih =>
      rw [backoffLoop, ih]
      ring

theorem calculateBackoff_eq_min (p : RetryPolicy) (rc : Int) :
    calculateBackoff p rc =
      min (durTrunc ((p.initialDelay : ℚ) * p.backoffFactor ^ (rc - 1).toNat)) p.maxDelay := by
  unfold calculateBackoff
  rw [backoffLoop_eq_pow]
  exact ite_gt_eq_min _ _

theorem durTrunc_nonneg_eq_floor {x : ℚ} (hx : 0 ≤ x) : durTrunc x = ⌊x⌋ := by
  unfold durTrunc
  rw [Int.tdiv_eq_ediv (Rat.num_nonneg.mpr hx) (Int.ofNat_nonneg _), Rat.floor_def]

theorem durTrunc_mono_of_nonneg {x y : ℚ} (hx : 0 ≤ x) (hxy : x ≤ y) :
    durTrunc x ≤ durTrunc y := by
  rw [durTrunc_nonneg_eq_floor hx, durTrunc_nonneg_eq_floor (hx.trans hxy)]
  exact Int.floor_le_floor hxy


/-! ### C1: shape of the reconnection backoff -/

/-- C1 (counterexample): the reconnection manager's backoff function is
not exponential in the attempt index: no capped geometric progression
matches its values 5s, 10s, 15s, ..., 60s. -/
theorem C1_backoff_not_exponential : ¬ GrowsExponentiallyCapped exponentialBackoff := by
  rintro ⟨c, r, cap, hc, hr, h⟩
  have h1 := h 1 (by norm_num)
  have h2 := h 2 (by norm_num)
  have h3 := h 3 (by norm_num)
  have h13 := h 13 (by norm_num)
  rw [show exponentialBackoff 1 = 5000000000 from by decide,
    show ((1 : Int) - 1).toNat = 0 from rfl] at h1
  rw [show exponentialBackoff 2 = 10000000000 from by decide,
    show ((2 : Int) - 1).toNat = 1 from rfl] at h2
  rw [show exponentialBackoff 3 = 15000000000 from by decide,
    show ((3 : Int) - 1).toNat = 2 from rfl] at h3
  rw [show exponentialBackoff 13 = 60000000000 from by decide,
    show ((13 : Int) - 1).toNat = 12 from rfl] at h13
  push_cast at h1 h2 h3 h13
  rw [pow_zero, mul_one] at h1
  rw [pow_one] at h2
  have hcap : (60000000000 : ℚ) ≤ cap := by
    rcases min_eq_iff.mp h13.symm with ⟨hv, hle⟩ | ⟨hv, _⟩
    · linarith
    · linarith
  have hc5 : c = 5000000000 := by
    rcases min_eq_iff.mp h1.symm with ⟨hv, _⟩ | ⟨hv, _⟩
    · exact hv
    · linarith
  have hcr : c * r = 10000000000 := by
    rcases min_eq_iff.mp h2.symm with ⟨hv, _⟩ | ⟨hv, _⟩
    · exact hv
    · linarith
  have hr2 : r = 2 := by
    rw [hc5] at hcr
    linarith
  have hcr2 : c * r ^ 2 = 15000000000 := by
    rcases min_eq_iff.mp h3.symm with ⟨hv, _⟩ | ⟨hv, _⟩
    · exact hv
    · linarith
  rw [hc5, hr2] at hcr2
  norm_num at hcr2

/-- C1 (amended): for every attempt index `n ≥ 1`, the reconnection
delay grows linearly with the attempt index — it equals
`min (n * 5s) 60s` — is non-decreasing in `n`, and is capped at 60
seconds. -/
theorem C1_backoff_linear_capped (n : Int) (hn : 1 ≤ n) :
    exponentialBackoff n = min (n * 5 * second) (60 * second) ∧
    exponentialBackoff n ≤ exponentialBackoff (n + 1) ∧
    exponentialBackoff n ≤ 60 * second := by
  simp only [exponentialBackoff, second]
  refine ⟨ite_gt_eq_min _ _, ?_, ?_⟩ <;> split_ifs <;> omega

/-- C1 (witness): the amended statement evaluated at attempt 3. -/
theorem C1_backoff_linear_capped_witness :
    (1 : Int) ≤ 3 ∧
      (exponentialBackoff 3 = min (3 * 5 * second) (60 * second) ∧
        exponentialBackoff 3 ≤ exponentialBackoff (3 + 1) ∧
        exponentialBackoff 3 ≤ 60 * second) :=
  ⟨by decide, C1_backoff_linear_capped 3 (by decide)⟩

/-! ### C3: single-flight reconnection via the CAS flag -/

theorem runTriggers_flag_ne_zero (flag : Int) (hf : ¬flag = 0) (n : Nat) :
    (runTriggers true flag n).2 = 0 := by
  induction n with
  | zero => rfl
  | succ n ih => simp [runTriggers, triggerReconnection, hf, ih]

/-- C3: however many workers (reader, writer, keepalive pinger) detect a
transport failure concurrently, the compare-and-swap on the
`reconnecting` flag admits exactly one `attemptReconnection` launch: any
interleaving of `n ≥ 1` triggers starting from flag 0 launches it
exactly once. -/
theorem C3_single_flight (n : Nat) (h : 1 ≤ n) :
    (runTriggers true 0 n).2 = 1 := by
  obtain ⟨m, rfl⟩ : ∃ m, n = m + 1 := ⟨n - 1, by omega⟩
  simp [runTriggers, triggerReconnection, runTriggers_flag_ne_zero 1 (by decide) m]

/-- C3 (witness): the spec's scenario of 3 concurrent transport errors
launches exactly one reconnection sequence. -/
theorem C3_single_flight_witness : (runTriggers true 0 3).2 = 1 :=
  C3_single_flight 3 (by decide)

/-! ### C7: idempotent disconnect -/

theorem Disconnect_not_running (c : NetworkClient) (h : c.running = false) :
    Disconnect c = { client := c, error := none, actions := [] } := by
  simp [Disconnect, h]

/-- C7: after a completed `Disconnect()`, a second `Disconnect()`
returns nil, performs no component stops or connection closes, and
leaves the client state unchanged. -/
theorem C7_disconnect_idempotent (c : NetworkClient) :
    (Disconnect (Disconnect c).client).error = none ∧
    (Disconnect (Disconnect c).client).actions = [] ∧
    (Disconnect (Disconnect c).client).client = (Disconnect c).client := by
  have h1 : (Disconnect c).client.running = false := by
    cases hb : c.running <;> simp [Disconnect, hb]
  rw [Disconnect_not_running _ h1]
  exact ⟨rfl, rfl, rfl⟩

/-! ### C9: connect fails fast when already running -/

/-- C9: if the client is already running, `Connect()` returns the
"already running" error, performs no side effect (no dial, no component
start), and leaves the client state unchanged. -/
theorem C9_connect_noop_when_running (c : NetworkClient) (d : Option Nat) (s : Bool)
    (h : c.running = true) :
    (Connect c d s).error = some "client is already running" ∧
    (Connect c d s).actions = [] ∧
    (Connect c d s).client = c := by
  simp [Connect, h]

/-- C9 (witness): the statement evaluated on a concrete running client. -/
theorem C9_connect_noop_when_running_witness :
    clientRunning.running = true ∧
      ((Connect clientRunning (some 1) true).error = some "client is already running" ∧
        (Connect clientRunning (some 1) true).actions = [] ∧
        (Connect clientRunning (some 1) true).client = clientRunning) :=
  ⟨rfl, C9_connect_noop_when_running clientRunning (some 1) true rfl⟩

/-! ### C8: authentication is reset on every (re)connect -/

theorem authFalse_preserved (c : NetworkClient) (op : ClientOp)
    (hop : op ≠ ClientOp.setAuthenticatedOp true) (hc : c.authenticated = false) :
    (applyOp c op).authenticated = false := by
  cases op with
  | connectOp d s =>
      cases d <;> simp only [applyOp, Connect] <;> split_ifs <;> simp [hc]
  | disconnectOp =>
      simp only [applyOp, Disconnect]
      split_ifs <;> simp [hc]
  | reconnectAttempt d =>
      cases d <;> simp [applyOp, reconnect]
  | setAuthenticatedOp b =>
      cases b
      · rfl
      · exact absurd rfl hop

theorem foldl_authFalse (ops : List ClientOp)
    (hops : ∀ op ∈ ops, op ≠ ClientOp.setAuthenticatedOp true) :
    ∀ c : NetworkClient, c.authenticated = false →
      (ops.foldl applyOp c).authenticated = false := by
  induction ops with
  | nil => exact fun c hc => hc
  | cons op ops ih =>
      intro c hc
      simp only [List.foldl_cons]
      exact ih (fun o ho => hops o (List.mem_cons_of_mem _ ho)) _
        (authFalse_preserved c op (hops op (List.mem_cons_self _ _)) hc)

/-- C8: after a successful `Connect()` and after any `reconnect()`, the
client is unauthenticated, and `IsAuthenticated()` stays false through
any further operations until `SetAuthenticated(true)` is called:
authentication never persists across a reconnect. -/
theorem C8_auth_reset_on_connect (c : NetworkClient) (d : Option Nat) (s : Bool)
    (ops : List ClientOp)
    (hops : ∀ op ∈ ops, op ≠ ClientOp.setAuthenticatedOp true)
    (hok : (Connect c d s).error = none) :
    IsAuthenticated (ops.foldl applyOp (Connect c d s).client) = false ∧
    IsAuthenticated (ops.foldl applyOp (reconnect c d).client) = false := by
  constructor
  · show (ops.foldl applyOp (Connect c d s).client).authenticated = false
    apply foldl_authFalse ops hops
    cases hb : c.running with
    | true => simp [Connect, hb] at hok
    | false =>
        cases d with
        | none => simp [Connect, hb] at hok
        | some h0 =>
            cases s with
            | false => simp [Connect, hb] at hok
            | true => simp [Connect, hb]
  · show (ops.foldl applyOp (reconnect c d).client).authenticated = false
    apply foldl_authFalse ops hops
    cases d <;> simp [reconnect]

/-- C8 (witness): after a successful connect (or reconnect) followed by
a disconnect and a `SetAuthenticated(false)`, the client is still
unauthenticated. -/
theorem C8_auth_reset_on_connect_witness :
    IsAuthenticated
      ([ClientOp.disconnectOp, ClientOp.setAuthenticatedOp false].foldl applyOp
        (Connect clientFresh (some 1) true).client) = false ∧
    IsAuthenticated
      ([ClientOp.disconnectOp, ClientOp.setAuthenticatedOp false].foldl applyOp
        (reconnect clientFresh (some 1)).client) = false :=
  C8_auth_reset_on_connect clientFresh (some 1) true
    [ClientOp.disconnectOp, ClientOp.setAuthenticatedOp false] (by decide) rfl

/-! ### C2: retry increments the count and requeues with exponential backoff -/

/-- C2: `retryCount` starts at 0 when a message is enqueued; on a failed
retry attempt the count is incremented before the next delay is
computed, and when the incremented count is below `MaxRetries` the
message is re-appended with
`nextRetry = now + min(initialDelay * backoffFactor^(retryCount-1), maxDelay)`
(the product computed in float arithmetic, here exact rationals, and
truncated to integer nanoseconds by the `time.Duration` conversion). -/
theorem C2_retry_increments_and_requeues (q : MessageRetryQueue) (msg : Message)
    (m : RetryableMessage) (err failErr : Err) (now : Int)
    (henq : q.policy.retryableError err = true)
    (hlt : m.retryCount + 1 < q.policy.maxRetries) :
    (Enqueue q msg err now).queue =
      q.queue ++ [{ message := msg, retryCount := 0, lastAttempt := now,
                    nextRetry := now + q.policy.initialDelay, error := err }] ∧
    (retryMessage q m (some failErr) now).queue =
      q.queue ++ [{ message := m.message, retryCount := m.retryCount + 1, lastAttempt := now,
                    nextRetry := now + min (durTrunc ((q.policy.initialDelay : ℚ) *
                      q.policy.backoffFactor ^ m.retryCount.toNat)) q.policy.maxDelay,
                    error := failErr }] := by
  constructor
  · simp [Enqueue, henq]
  · have hnot : ¬m.retryCount + 1 ≥ q.policy.maxRetries := by omega
    simp [retryMessage, hnot, calculateBackoff_eq_min, Int.add_sub_cancel]

/-- C2 (witness): the statement evaluated on a fresh default-policy
queue and a message on its first failure. -/
theorem C2_retry_increments_and_requeues_witness :
    (Enqueue queueDefault msg0 "send failed" 0).queue =
      queueDefault.queue ++ [{ message := msg0, retryCount := 0, lastAttempt := 0,
                               nextRetry := 0 + queueDefault.policy.initialDelay,
                               error := "send failed" }] ∧
    (retryMessage queueDefault retryMsg0 (some "send failed") 0).queue =
      queueDefault.queue ++
        [{ message := retryMsg0.message, retryCount := retryMsg0.retryCount + 1, lastAttempt := 0,
           nextRetry := 0 + min (durTrunc ((queueDefault.policy.initialDelay : ℚ) *
             queueDefault.policy.backoffFactor ^ retryMsg0.retryCount.toNat))
             queueDefault.policy.maxDelay,
           error := "send failed" }] :=
  C2_retry_increments_and_requeues queueDefault msg0 retryMsg0 "send failed" "send failed" 0
    rfl (by decide)

/-! ### C4: drop after maxRetries -/

/-- C4: when a retry fails and the incremented `retryCount` has reached
`MaxRetries`, the message is dropped — it is not re-appended to the
queue (so it is never retried again) — and `FailedRetries` and
`DroppedMessages` are each incremented by one. -/
theorem C4_drop_after_max_retries (q : MessageRetryQueue) (m : RetryableMessage)
    (failErr : Err) (now : Int) (hge : q.policy.maxRetries ≤ m.retryCount + 1) :
    (retryMessage q m (some failErr) now).queue = q.queue ∧
    (retryMessage q m (some failErr) now).metrics.failedRetries =
      q.metrics.failedRetries + 1 ∧
    (retryMessage q m (some failErr) now).metrics.droppedMessages =
      q.metrics.droppedMessages + 1 := by
  have hyes : m.retryCount + 1 ≥ q.policy.maxRetries := hge
  simp [retryMessage, hyes]

/-- C4 (witness): a message on its third failure under the default
policy (MaxRetries = 3) is dropped and both counters are bumped. -/
theorem C4_drop_after_max_retries_witness :
    (retryMessage queueDefault retryMsg2 (some "send failed") 0).queue = queueDefault.queue ∧
    (retryMessage queueDefault retryMsg2 (some "send failed") 0).metrics.failedRetries =
      queueDefault.metrics.failedRetries + 1 ∧
    (retryMessage queueDefault retryMsg2 (some "send failed") 0).metrics.droppedMessages =
      queueDefault.metrics.droppedMessages + 1 :=
  C4_drop_after_max_retries queueDefault retryMsg2 "send failed" 0 (by decide)

/-! ### C5: backoff is non-decreasing and capped -/

/-- C5: for every retry policy with `backoffFactor ≥ 1` (and a
non-negative initial delay, as a delay is), the computed backoff over
successive retry counts 1, 2, 3, ... is non-decreasing, and every
computed delay never exceeds `maxDelay`. -/
theorem C5_backoff_monotone_capped (p : RetryPolicy) (hf : 1 ≤ p.backoffFactor)
    (h0 : 0 ≤ p.initialDelay) (k : Int) (hk : 1 ≤ k) :
    calculateBackoff p k ≤ calculateBackoff p (k + 1) ∧
    calculateBackoff p k ≤ p.maxDelay := by
  rw [calculateBackoff_eq_min, calculateBackoff_eq_min]
  have h0q : (0 : ℚ) ≤ (p.initialDelay : ℚ) := by exact_mod_cast h0
  have hfq : (0 : ℚ) ≤ p.backoffFactor := by linarith
  constructor
  · apply min_le_min _ le_rfl
    apply durTrunc_mono_of_nonneg (mul_nonneg h0q (pow_nonneg hfq _))
    apply mul_le_mul_of_nonneg_left _ h0q
    exact pow_le_pow_right₀ hf (by omega)
  · exact min_le_right _ _

/-- C5 (witness): the statement evaluated at the default policy and
retry count 2. -/
theorem C5_backoff_monotone_capped_witness :
    calculateBackoff DefaultRetryPolicy 2 ≤ calculateBackoff DefaultRetryPolicy (2 + 1) ∧
    calculateBackoff DefaultRetryPolicy 2 ≤ DefaultRetryPolicy.maxDelay :=
  C5_backoff_monotone_capped DefaultRetryPolicy (by norm_num [DefaultRetryPolicy])
    (by norm_num [DefaultRetryPolicy, second]) 2 (by norm_num)

/-! ### C6: Enqueue classifies errors -/

/-- C6: `Enqueue(msg, err)` with a non-retryable error leaves the queue
unchanged and increments `DroppedMessages` by one; with a retryable
error it appends exactly one `RetryableMessage` with `message = msg`,
`retryCount = 0` and `nextRetry = now + initialDelay` to the end of the
queue. -/
theorem C6_enqueue_classifies (q : MessageRetryQueue) (msg : Message) (err : Err)
    (now : Int) :
    (q.policy.retryableError err = false →
      (Enqueue q msg err now).queue = q.queue ∧
      (Enqueue q msg err now).metrics.droppedMessages = q.metrics.droppedMessages + 1) ∧
    (q.policy.retryableError err = true →
      (Enqueue q msg err now).queue =
        q.queue ++ [{ message := msg, retryCount := 0, lastAttempt := now,
                      nextRetry := now + q.policy.initialDelay, error := err }]) := by
  constructor
  · intro h
    simp [Enqueue, h]
  · intro h
    simp [Enqueue, h]

/-- C6 (witness): under a policy that rejects the error "fatal", an
enqueue with "fatal" is dropped and counted, and an enqueue with
"timeout" is appended. -/
theorem C6_enqueue_classifies_witness :
    ((Enqueue queueFatal msg0 "fatal" 0).queue = queueFatal.queue ∧
      (Enqueue queueFatal msg0 "fatal" 0).metrics.droppedMessages =
        queueFatal.metrics.droppedMessages + 1) ∧
    (Enqueue queueFatal msg0 "timeout" 0).queue =
      queueFatal.queue ++ [{ message := msg0, retryCount := 0, lastAttempt := 0,
                             nextRetry := 0 + queueFatal.policy.initialDelay,
                             error := "timeout" }] :=
  ⟨(C6_enqueue_classifies queueFatal msg0 "fatal" 0).1 (by decide),
    (C6_enqueue_classifies queueFatal msg0 "timeout" 0).2 (by decide)⟩

/-! ### C10: the default policy retries every error -/

/-- C10: the default retry policy's `RetryableError` predicate accepts
every error, `NewNetworkClient` builds its retry queue with
`DefaultRetryPolicy()`, and under the default policy every `Enqueue`
appends the message to the queue. -/
theorem C10_default_policy_always_retryable (q : MessageRetryQueue) (msg : Message)
    (err : Err) (now : Int) (config : Config) (hq : q.policy = DefaultRetryPolicy) :
    q.policy.retryableError err = true ∧
    (NewNetworkClient config).retryPolicy = DefaultRetryPolicy ∧
    (Enqueue q msg err now).queue =
      q.queue ++ [{ message := msg, retryCount := 0, lastAttempt := now,
                    nextRetry := now + q.policy.initialDelay, error := err }] := by
  have h : q.policy.retryableError err = true := by rw [hq]; rfl
  exact ⟨h, rfl, by simp [Enqueue, h]⟩

/-- C10 (witness): the statement evaluated on a fresh default-policy
queue, an arbitrary error string and the default configuration. -/
theorem C10_default_policy_always_retryable_witness :
    queueDefault.policy.retryableError "any error at all" = true ∧
    (NewNetworkClient DefaultNetworkConfig).retryPolicy = DefaultRetryPolicy ∧
    (Enqueue queueDefault msg0 "any error at all" 7).queue =
      queueDefault.queue ++ [{ message := msg0, retryCount := 0, lastAttempt := 7,
                               nextRetry := 7 + queueDefault.policy.initialDelay,
                               error := "any error at all" }] :=
  C10_default_policy_always_retryable queueDefault msg0 "any error at all" 7
    DefaultNetworkConfig rfl

end Teneo
